import Mathlib

/-!
Verification development for the IT asset management repository.

The definitions below are a shallow embedding of the Python sources:
`global_blocking.py` (GlobalBlockingManager), `network_discovery.py`
(NetworkDiscovery), `network_firewall.py` (FirewallManager and the four
adapters) and `router_config_manager.py` (RouterConfigManager).

File-system, SQLite, socket and SSH effects are made explicit: each
operation takes an environment record carrying the outcome of the
effectful steps (whether a save to disk succeeded, the stored router
configuration, the device population returned by the registry query,
whether an SSH session could be opened, per-command exit status, and so
on), and the operation's result is computed exactly as the Python control
flow dictates.  Timestamps are natural numbers; datetime strings are
opaque strings supplied by the environment.
-/

/-! ## Python string primitives used by the sources -/

/-- Embedding of Python `str.lower()` (ASCII inputs). -/
def pyLower (s : String) : String :=
  ⟨s.data.map Char.toLower⟩

/-- Embedding of Python `str.strip()`: drop whitespace from both ends. -/
def pyStrip (s : String) : String :=
  ⟨((s.data.dropWhile Char.isWhitespace).reverse.dropWhile Char.isWhitespace).reverse⟩

/-- Worker for `pyReplace`.  Replaces non-overlapping occurrences of `pat`
left to right, like Python `str.replace` for a non-empty pattern.  The
fuel argument (initialised to the length of the string) makes the
definition structurally recursive; each step consumes at least one
character, so the fuel never runs out on the initial call. -/
def pyReplaceAux (pat rep : List Char) : Nat → List Char → List Char
  | _, [] => []
  | 0, s => s
  | fuel + 1, c :: rest =>
    if !pat.isEmpty && pat.isPrefixOf (c :: rest) then
      rep ++ pyReplaceAux pat rep fuel (List.drop (pat.length - 1) rest)
    else
      c :: pyReplaceAux pat rep fuel rest

/-- Embedding of Python `s.replace(old, new)` for non-empty `old`. -/
def pyReplace (s old new : String) : String :=
  ⟨pyReplaceAux old.data new.data s.data.length s.data⟩

/-- Embedding of Python `sep.join(xs)`. -/
def pyJoin (sep : String) : List String → String
  | [] => ""
  | x :: xs => xs.foldl (fun acc y => acc ++ sep ++ y) x

/-- Worker for `pyTitle`; the boolean records whether the previous
character was alphabetic. -/
def pyTitleAux : Bool → List Char → List Char
  | _, [] => []
  | prevAlpha, c :: r =>
    (if c.isAlpha then (if prevAlpha then c.toLower else c.toUpper) else c) ::
      pyTitleAux c.isAlpha r

/-- Embedding of Python `str.title()` (ASCII inputs). -/
def pyTitle (s : String) : String :=
  ⟨pyTitleAux false s.data⟩

/-- Worker for `pyIn`: does `pat` occur as a contiguous sublist? -/
def containsSub : List Char → List Char → Bool
  | [], pat => pat.isEmpty
  | c :: rest, pat => pat.isPrefixOf (c :: rest) || containsSub rest pat

/-- Embedding of Python `pat in s` for strings. -/
def pyIn (pat s : String) : Bool :=
  containsSub s.data pat.data

/-! ## Global blocking manager (`global_blocking.py`)

State: the in-memory `self.blocked_domains` list.  Environment: the
outcome of `save_blocked_domains`, the stored `router_config.json`
content, the device population returned by `get_discovered_devices`,
and the outcomes of the SSH steps inside `apply_domain_block` /
`remove_domain_block`. -/

/-- One entry of the blocked-domain list, as built by
`add_blocked_domain` (`global_blocking.py` lines 84-91). -/
structure BlockEntry where
  domain : String
  reason : String
  created_by : String
  created_at : String
  applied_devices : List String
  status : String
deriving DecidableEq, Repr

/-- The manager's mutable state: `self.blocked_domains`. -/
structure GBState where
  blocked_domains : List BlockEntry
deriving DecidableEq, Repr

/-- Content of a parsed `router_config.json` as read by
`GlobalBlockingManager.load_router_config`.  `connectionSuccess` models
`config.get('connection_status', {}).get('success', False)` — `false`
when the key chain is absent. -/
structure RouterFile where
  connectionSuccess : Bool
  mode : String
  router_ip : String
  username : String
  password : String
  port : Nat
deriving DecidableEq, Repr

/-- A device as returned by the registry query
(`get_discovered_devices`); only `currentIp` is consulted. -/
structure FleetDevice where
  currentIp : Option String
deriving DecidableEq, Repr

/-- Environment of effect outcomes for the global blocking manager. -/
structure GBEnv where
  /-- result of `save_blocked_domains()` -/
  saveOk : Bool
  /-- parsed content of `router_config.json`; `none` when the file is
  absent or unreadable -/
  routerFile : Option RouterFile
  /-- result of `get_discovered_devices()` -/
  devices : List FleetDevice
  /-- whether the SSH session in `apply_domain_block` for a given domain
  opens and runs to completion without an exception -/
  sshConnectOk : String → Bool
  /-- whether the per-device iptables command in `apply_domain_block`
  produced empty stderr (domain, device ip) -/
  stderrEmpty : String → String → Bool
  /-- whether the SSH session in `remove_domain_block` for a given
  domain opens and runs to completion without an exception -/
  removeSshOk : String → Bool
  /-- `datetime.now().isoformat()` -/
  nowStr : String

/-- `GlobalBlockingManager.load_router_config` (lines 46-57): the parsed
file is returned only when `connection_status.success` is truthy. -/
def load_router_config (file : Option RouterFile) : Option RouterFile :=
  match file with
  | none => none
  | some config => if config.connectionSuccess then some config else none

/-- `GlobalBlockingManager.apply_domain_block` (lines 137-178).
Result: (success flag, applied count, whether the real SSH path ran).
In simulated mode (no usable router config) it succeeds with the full
device count; in real mode it counts the devices with an IP whose
iptables command produced empty stderr, and an SSH failure yields
`(False, 0)`. -/
def apply_domain_block (env : GBEnv) (domain : String) : Bool × Nat × Bool :=
  match load_router_config env.routerFile with
  | none => (true, env.devices.length, false)
  | some _ =>
    if env.sshConnectOk domain then
      (true,
       ((env.devices.filterMap (fun d => d.currentIp)).filter
         (fun ip => env.stderrEmpty domain ip)).length,
       true)
    else
      (false, 0, true)

/-- `GlobalBlockingManager.remove_domain_block` (lines 180-216).  The
real path increments `removed_count` for every device with an IP,
unconditionally. -/
def remove_domain_block (env : GBEnv) (domain : String) : Bool × Nat × Bool :=
  match load_router_config env.routerFile with
  | none => (true, env.devices.length, false)
  | some _ =>
    if env.removeSshOk domain then
      (true, (env.devices.filterMap (fun d => d.currentIp)).length, true)
    else
      (false, 0, true)

/-- The input normalisation of `add_blocked_domain` (line 77):
`domain.strip().lower().replace('http://', '').replace('https://', '').replace('www.', '')`. -/
def cleanDomain (domain : String) : String :=
  pyReplace (pyReplace (pyReplace (pyLower (pyStrip domain)) "http://" "") "https://" "") "www." ""

/-- The input normalisation of `remove_blocked_domain` (line 113):
`domain.strip().lower()` — no scheme or `www.` stripping. -/
def cleanRemoveDomain (domain : String) : String :=
  pyLower (pyStrip domain)

/-- `GlobalBlockingManager.add_blocked_domain` (lines 73-108).  Returns
the new state together with the `(success, message)` pair.  Note that
the entry is appended before the save, so a failed save still leaves the
entry in the in-memory list. -/
def add_blocked_domain (env : GBEnv) (st : GBState)
    (domain reason created_by : String) : GBState × Bool × String :=
  let clean_domain := cleanDomain domain
  if st.blocked_domains.any (fun d => d.domain == clean_domain) then
    (st, false, "Domain " ++ clean_domain ++ " is already blocked")
  else
    let block_entry : BlockEntry :=
      { domain := clean_domain, reason := reason, created_by := created_by,
        created_at := env.nowStr, applied_devices := [], status := "active" }
    let st' : GBState := ⟨st.blocked_domains ++ [block_entry]⟩
    if env.saveOk then
      let r := apply_domain_block env clean_domain
      if r.1 then
        (st', true,
         "Domain " ++ clean_domain ++ " blocked successfully on " ++
           toString r.2.1 ++ " devices")
      else
        (st', true,
         "Domain " ++ clean_domain ++ " added to block list (rules application pending)")
    else
      (st', false, "Failed to save blocked domains")

/-- `GlobalBlockingManager.remove_blocked_domain` (lines 110-135).  The
list is reassigned to the filtered list before the not-found check and
before the save. -/
def remove_blocked_domain (env : GBEnv) (st : GBState)
    (domain removed_by : String) : GBState × Bool × String :=
  let clean_domain := cleanRemoveDomain domain
  let filtered := st.blocked_domains.filter (fun d => !(d.domain == clean_domain))
  if filtered.length == st.blocked_domains.length then
    (⟨filtered⟩, false, "Domain " ++ clean_domain ++ " not found in block list")
  else
    if env.saveOk then
      let r := remove_domain_block env clean_domain
      if r.1 then
        (⟨filtered⟩, true,
         "Domain " ++ clean_domain ++ " unblocked successfully on " ++
           toString r.2.1 ++ " devices")
      else
        (⟨filtered⟩, true,
         "Domain " ++ clean_domain ++ " removed from block list (rules removal pending)")
    else
      (⟨filtered⟩, false, "Failed to save changes")

/-- Loop body of `GlobalBlockingManager.reapply_all_rules`
(lines 227-233): accumulator is `(total_applied, failed_domains)`. -/
def reapplyStep (env : GBEnv) (acc : Nat × List String) (e : BlockEntry) :
    Nat × List String :=
  if e.status == "active" then
    let r := apply_domain_block env e.domain
    if r.1 then (acc.1 + r.2.1, acc.2) else (acc.1, acc.2 ++ [e.domain])
  else acc

/-- `GlobalBlockingManager.reapply_all_rules` (lines 222-238). -/
def reapply_all_rules (env : GBEnv) (st : GBState) : Bool × String :=
  let res := st.blocked_domains.foldl (reapplyStep env) (0, [])
  if res.2.isEmpty then
    (true, "Successfully applied " ++ toString res.1 ++ " blocking rules")
  else
    (false, "Applied " ++ toString res.1 ++ " rules, failed: " ++ pyJoin ", " res.2)

/-! Characterisation helpers for `reapply_all_rules` (spec side). -/

/-- The domains of the `status = "active"` entries, in list order. -/
def activeDomains (st : GBState) : List String :=
  (st.blocked_domains.filter (fun e => e.status == "active")).map (fun e => e.domain)

/-- Active domains whose `apply_domain_block` reports failure. -/
def reapplyFailed (env : GBEnv) (st : GBState) : List String :=
  (activeDomains st).filter (fun d => !(apply_domain_block env d).1)

/-- Total of the applied counts over the active domains whose
`apply_domain_block` succeeds. -/
def reapplyTotal (env : GBEnv) (st : GBState) : Nat :=
  (((activeDomains st).filter (fun d => (apply_domain_block env d).1)).map
    (fun d => (apply_domain_block env d).2.1)).sum

/-- Example environment: empty-population simulated mode with working
persistence. -/
def exEnv : GBEnv :=
  { saveOk := true, routerFile := none, devices := [],
    sshConnectOk := fun _ => true, stderrEmpty := fun _ _ => true,
    removeSshOk := fun _ => true, nowStr := "2026-01-01T00:00:00" }

/-! ## Network discovery (`network_discovery.py`)

The relational store (`discovered_devices`, `scan_history`) is modelled
as two lists; `CURRENT_TIMESTAMP` is a natural number supplied per call. -/

/-- A raw device observation as produced by the scan strategies
(`scan_with_nmap` / `scan_with_scapy` / `scan_with_ping_sweep`). -/
structure Device where
  ip : String
  mac : Option String
  hostname : Option String
  vendor : Option String
  os : Option String
  ports : List String
deriving DecidableEq, Repr

/-- A row of the `discovered_devices` table (`init_local_db`). -/
structure DeviceRecord where
  mac : String
  ip_address : String
  hostname : Option String
  vendor : Option String
  device_type : String
  first_seen : Nat
  last_seen : Nat
  ports_open : String
  os_guess : Option String
  status : String
deriving DecidableEq, Repr

/-- A row of the `scan_history` table. -/
structure ScanEvent where
  scan_time : Nat
  devices_found : Nat
  scan_method : String
deriving DecidableEq, Repr

/-- The local SQLite database. -/
structure DiscoveryDB where
  devices : List DeviceRecord
  scan_history : List ScanEvent
deriving DecidableEq, Repr

/-- `self.device_patterns` (`network_discovery.py` lines 67-76), in
insertion order. -/
def device_patterns : List (String × List String) :=
  [("printer", ["printer", "canon", "hp", "epson", "brother", "xerox", "lexmark"]),
   ("router", ["router", "gateway", "linksys", "netgear", "asus", "tp-link", "dlink"]),
   ("camera", ["camera", "cam", "hikvision", "dahua", "axis", "foscam"]),
   ("iot", ["sensor", "thermostat", "smart", "alexa", "google", "nest"]),
   ("server", ["server", "nas", "synology", "qnap", "freenas"]),
   ("mobile", ["android", "iphone", "samsung", "pixel", "oneplus"]),
   ("laptop", ["laptop", "macbook", "thinkpad", "latitude", "inspiron"]),
   ("desktop", ["desktop", "optiplex", "precision", "workstation"])]

/-- First pass of `classify_device`: the first category one of whose
keywords occurs in the text wins, returned through `str.title()`. -/
def findPatternMatch (text : String) : List (String × List String) → Option String
  | [] => none
  | (device_type, patterns) :: rest =>
    if patterns.any (fun pattern => pyIn pattern text) then some (pyTitle device_type)
    else findPatternMatch text rest

/-- `int(port_info.split('/')[0])` for each port descriptor, skipping
entries that do not parse (the `except: continue`). -/
def portNumbers (ports : List String) : List Nat :=
  ports.filterMap (fun p => ((p.splitOn "/").headD "").toNat?)

/-- `NetworkDiscovery.classify_device` (lines 323-362). -/
def classify_device (d : Device) : String :=
  let hostname := pyLower (d.hostname.getD "")
  let ports := pyLower (pyJoin " " d.ports)
  let vendor := pyLower (d.vendor.getD "")
  let text_to_analyze := hostname ++ " " ++ ports ++ " " ++ vendor
  match findPatternMatch text_to_analyze device_patterns with
  | some t => t
  | none =>
    let port_numbers := portNumbers d.ports
    if port_numbers.contains 80 || port_numbers.contains 443 then
      if port_numbers.contains 22 then "Server"
      else if port_numbers.contains 631 then "Printer"
      else "Web Device"
    else if port_numbers.contains 22 then "Linux Server"
    else if port_numbers.contains 3389 then "Windows Server"
    else if port_numbers.contains 139 || port_numbers.contains 445 then "Windows Device"
    else if port_numbers.contains 1883 || port_numbers.contains 8883 then "IoT Device"
    else "Unknown Device"

/-- The UPDATE branch of the upsert in `save_to_local_db` (lines
382-388): every mutable field is overwritten and `last_seen` is set to
the current timestamp; `first_seen` and `status` are not touched. -/
def updateRec (now : Nat) (d : Device) (r : DeviceRecord) : DeviceRecord :=
  { r with ip_address := d.ip, hostname := d.hostname, vendor := d.vendor,
           device_type := classify_device d, last_seen := now,
           ports_open := pyJoin "," d.ports, os_guess := d.os }

/-- The INSERT branch of the upsert (lines 391-396); `first_seen`,
`last_seen` and `status` take their column defaults. -/
def insertRec (now : Nat) (d : Device) (m : String) : DeviceRecord :=
  { mac := m, ip_address := d.ip, hostname := d.hostname, vendor := d.vendor,
    device_type := classify_device d, first_seen := now, last_seen := now,
    ports_open := pyJoin "," d.ports, os_guess := d.os, status := "active" }

/-- One iteration of the device loop in `save_to_local_db` (lines
369-396): observations without a MAC are skipped; otherwise the row
keyed by the MAC is updated if present, inserted otherwise. -/
def upsertDevice (now : Nat) (db : List DeviceRecord) (d : Device) : List DeviceRecord :=
  match d.mac with
  | none => db
  | some m =>
    if db.any (fun r => r.mac == m) then
      db.map (fun r => if r.mac == m then updateRec now d r else r)
    else
      db ++ [insertRec now d m]

/-- `NetworkDiscovery.save_to_local_db` (lines 364-405): upsert every
observation, then append one `scan_history` row with
`devices_found = len(devices)` and the literal method `"automated"`. -/
def save_to_local_db (now : Nat) (db : DiscoveryDB) (devices : List Device) : DiscoveryDB :=
  { devices := devices.foldl (upsertDevice now) db.devices,
    scan_history := db.scan_history ++ [⟨now, devices.length, "automated"⟩] }

/-- Strategy selection of `perform_network_scan` (lines 467-489): nmap
if available, else scapy, else the ping sweep. -/
def scanMethodUsed (nmapAvailable scapyAvailable : Bool) : String :=
  if nmapAvailable then "nmap" else if scapyAvailable then "scapy" else "ping_sweep"

/-- The database effect of one iteration of the `scan_loop` in
`start_continuous_scanning` (lines 503-524): `save_to_local_db` runs
only under `if devices:`. -/
def scanLoopIteration (now : Nat) (db : DiscoveryDB) (devices : List Device) : DiscoveryDB :=
  if devices.isEmpty then db else save_to_local_db now db devices

/-! ## Firewall adapters and manager (`network_firewall.py`)

Each adapter method is dominated by remote I/O; an `AdapterEnv` record
carries the outcome of every effectful step (SSH connect, command exit
status, stderr text, API call results, the simulated adapter's random
draw and in-memory rule list), and the adapter bodies compute the
returned tuples exactly as the Python control flow does. -/

/-- A rule of the simulated adapter's in-memory list. -/
structure SimRule where
  device_ip : String
  domain : String
  firewall_rule : String
  status : String
deriving DecidableEq, Repr

/-- A FortiGate policy as returned by the policy-list API. -/
structure FGPolicy where
  name : String
  policyid : Nat
deriving DecidableEq, Repr

/-- A parsed rule descriptor as returned by `list_rules`.  The simulated
adapter additionally reports the device ip and domain. -/
structure RuleInfo where
  rule : String
  rtype : String
  active : Bool
  device_ip : Option String := none
  domain : Option String := none
deriving DecidableEq, Repr

/-- Outcomes of the effectful steps inside the adapter methods. -/
structure AdapterEnv where
  /-- SSH connection succeeds (`_connect_ssh`) -/
  sshOk : Bool
  /-- remote command exit status is zero (pfSense) -/
  exitOk : Bool
  /-- stderr text of a failed remote command -/
  cmdError : String
  /-- index of the first failing command of the OpenWrt block sequence,
  if any -/
  openwrtFail : Option Nat
  /-- first API request succeeds (FortiGate) -/
  apiOk1 : Bool
  /-- second API request succeeds (FortiGate) -/
  apiOk2 : Bool
  /-- `response.get('error', 'Unknown error')` of a failed API call -/
  apiError : String
  /-- policies returned by the FortiGate policy-list API -/
  fgPolicies : List FGPolicy
  /-- FortiGate version string -/
  fgVersion : String
  /-- output of `uname -a` on the pfSense box -/
  unameOut : String
  /-- output of `cat /etc/openwrt_release` -/
  releaseOut : String
  /-- raw rule listing lines returned over SSH -/
  ruleLines : List String
  /-- the simulated adapter's `random.random() < 0.95` draw -/
  simRand : Bool
  /-- the simulated adapter's current rule list -/
  simRules : List SimRule
  /-- the simulated adapter's `rule_counter` -/
  simCounter : Nat

/-- The four firewall integrations of `network_firewall.py`, carrying
their constructor arguments (`config.get(...)` values, which may be
absent). -/
inductive Adapter where
  | pfsense (host username password api_key : Option String)
  | openwrt (host username password : Option String)
  | fortigate (host api_key : Option String) (vdom : String)
  | simulated
deriving DecidableEq, Repr

/-- The command sequence of `OpenWrtFirewall.block_domain` (lines
186-191). -/
def openwrtBlockCmds (device_ip domain : String) : List String :=
  ["echo \x27address=/" ++ domain ++ "/127.0.0.1\x27 >> /etc/dnsmasq.conf",
   "iptables -I FORWARD -s " ++ device_ip ++ " -m string --string \x27" ++ domain ++
     "\x27 --algo bm -j DROP",
   "/etc/init.d/dnsmasq restart",
   "/etc/init.d/firewall restart"]

/-- `block_domain` of each adapter (`network_firewall.py` lines 68-95,
178-206, 302-337, 398-430). -/
def Adapter.blockDomain (a : Adapter) (env : AdapterEnv)
    (device_ip domain rule_name : String) : Bool × String × Option String :=
  match a with
  | .pfsense _ _ _ _ =>
    if !env.sshOk then (false, "SSH connection failed", none)
    else if env.exitOk then
      (true, "Domain " ++ domain ++ " blocked for " ++ device_ip,
       some ("block out quick from " ++ device_ip ++ " to " ++ domain))
    else (false, "Failed to create rule: " ++ env.cmdError, none)
  | .openwrt _ _ _ =>
    if !env.sshOk then (false, "SSH connection failed", none)
    else
      match env.openwrtFail with
      | some i =>
        (false,
         "Command failed: " ++ (openwrtBlockCmds device_ip domain).getD i "" ++
           " - " ++ env.cmdError, none)
      | none =>
        (true, "Domain " ++ domain ++ " blocked for " ++ device_ip,
         some ("iptables -I FORWARD -s " ++ device_ip ++ " -m string --string \x27" ++
           domain ++ "\x27 --algo bm -j DROP"))
  | .fortigate _ _ _ =>
    if !env.apiOk1 then
      (false, "Failed to create address object: " ++ env.apiError, none)
    else if env.apiOk2 then
      (true, "Domain " ++ domain ++ " blocked for " ++ device_ip,
       some ("FortiGate policy: " ++ rule_name))
    else (false, "Failed to create policy: " ++ env.apiError, none)
  | .simulated =>
    if env.simRules.any (fun r => r.device_ip == device_ip && r.domain == domain) then
      (false, "Domain " ++ domain ++ " already blocked for " ++ device_ip, none)
    else if env.simRand then
      (true, "Domain " ++ domain ++ " successfully blocked for " ++ device_ip,
       some ("BLOCK " ++ device_ip ++ " -> " ++ domain ++ " (Rule #" ++
         toString env.simCounter ++ ")"))
    else (false, "Simulated firewall error: Network timeout", none)

/-- `unblock_domain` of each adapter (lines 97-117, 208-229, 339-360,
432-447). -/
def Adapter.unblockDomain (a : Adapter) (env : AdapterEnv)
    (device_ip domain rule_name : String) : Bool × String :=
  match a with
  | .pfsense _ _ _ _ =>
    if !env.sshOk then (false, "SSH connection failed")
    else if env.exitOk then (true, "Domain " ++ domain ++ " unblocked for " ++ device_ip)
    else (false, "Failed to remove rule: " ++ env.cmdError)
  | .openwrt _ _ _ =>
    if !env.sshOk then (false, "SSH connection failed")
    else (true, "Domain " ++ domain ++ " unblocked for " ++ device_ip)
  | .fortigate _ _ _ =>
    if env.apiOk1 then
      match env.fgPolicies.find? (fun p => p.name == rule_name) with
      | some _ =>
        if env.apiOk2 then (true, "Domain " ++ domain ++ " unblocked for " ++ device_ip)
        else (false, "Failed to delete policy: " ++ env.apiError)
      | none => (false, "Policy not found")
    else (false, "Policy not found")
  | .simulated =>
    if env.simRules.any (fun r => r.device_ip == device_ip && r.domain == domain) then
      (true, "Domain " ++ domain ++ " successfully unblocked for " ++ device_ip)
    else (false, "No blocking rule found for " ++ domain ++ " on " ++ device_ip)

/-- `list_rules` of each adapter (lines 119-144, 231-255, 362-375,
449-460). -/
def Adapter.listRules (a : Adapter) (env : AdapterEnv) : List RuleInfo :=
  match a with
  | .pfsense _ _ _ _ =>
    if !env.sshOk then []
    else (env.ruleLines.filter (fun l => pyIn "block" l && pyIn "label" l)).map
      (fun l => { rule := pyStrip l, rtype := "block", active := true })
  | .openwrt _ _ _ =>
    if !env.sshOk then []
    else (env.ruleLines.filter (fun l => pyIn "DROP" l && pyIn "string" l)).map
      (fun l => { rule := pyStrip l, rtype := "block", active := true })
  | .fortigate _ _ _ =>
    if env.apiOk1 then
      env.fgPolicies.map (fun p => { rule := p.name, rtype := "policy", active := true })
    else []
  | .simulated =>
    env.simRules.map (fun r =>
      { rule := r.firewall_rule, rtype := "block", active := r.status == "active",
        device_ip := some r.device_ip, domain := some r.domain })

/-- `test_connection` of each adapter (lines 146-157, 257-269, 377-389,
462-464). -/
def Adapter.testConnection (a : Adapter) (env : AdapterEnv) : Bool × String :=
  match a with
  | .pfsense _ _ _ _ =>
    if env.sshOk then (true, "Connected to pfSense: " ++ pyStrip env.unameOut)
    else (false, "SSH connection failed")
  | .openwrt _ _ _ =>
    if env.sshOk then (true, "Connected to OpenWrt: " ++ pyStrip env.releaseOut)
    else (false, "SSH connection failed")
  | .fortigate _ _ _ =>
    if env.apiOk1 then (true, "Connected to FortiGate: " ++ env.fgVersion)
    else (false, "Connection failed: " ++ env.apiError)
  | .simulated => (true, "Connected to simulated firewall (Demo Mode)")

/-- The configuration dict handed to `FirewallManager`; every lookup in
the source is a `config.get(...)`, so all fields are optional.  `ftype`
models the `'type'` key. -/
structure FWConfig where
  ftype : Option String
  host : Option String
  username : Option String
  password : Option String
  api_key : Option String
  vdom : Option String
deriving DecidableEq, Repr

/-- `config or {}` for an absent configuration. -/
def defaultFWConfig : FWConfig :=
  { ftype := none, host := none, username := none, password := none,
    api_key := none, vdom := none }

/-- `FirewallManager` state after `__init__`. -/
structure FirewallManager where
  config : FWConfig
  firewall : Option Adapter
  firewall_type : String
deriving DecidableEq, Repr

/-- `FirewallManager._initialize_firewall` (lines 476-507): the branch
on `self.firewall_type`, with the `except` fallback modelled by the
`ctorRaises` flag (an exception anywhere in the `try` body yields the
simulated adapter and resets the type).  Returns the adapter together
with the final `firewall_type`. -/
def initFirewall (ft : String) (config : FWConfig) (ctorRaises : Bool) :
    Adapter × String :=
  if ctorRaises then (Adapter.simulated, "simulated")
  else if ft == "pfsense" then
    (Adapter.pfsense config.host config.username config.password config.api_key, ft)
  else if ft == "openwrt" then
    (Adapter.openwrt config.host config.username config.password, ft)
  else if ft == "fortigate" then
    (Adapter.fortigate config.host config.api_key (config.vdom.getD "root"), ft)
  else (Adapter.simulated, "simulated")

/-- `FirewallManager.__init__` (lines 469-474): take `config or {}`,
read `config.get('type', 'simulated')`, and initialise the adapter. -/
def mkFirewallManager (cfg : Option FWConfig) (ctorRaises : Bool) : FirewallManager :=
  let config := cfg.getD defaultFWConfig
  let ft := config.ftype.getD "simulated"
  let r := initFirewall ft config ctorRaises
  { config := config, firewall := some r.1, firewall_type := r.2 }

/-- `FirewallManager.block_domain` (lines 509-514). -/
def FirewallManager.blockDomain (m : FirewallManager) (env : AdapterEnv)
    (device_ip domain rule_name : String) : Bool × String × Option String :=
  match m.firewall with
  | none => (false, "No firewall configured", none)
  | some fw => fw.blockDomain env device_ip domain rule_name

/-- `FirewallManager.unblock_domain` (lines 516-521). -/
def FirewallManager.unblockDomain (m : FirewallManager) (env : AdapterEnv)
    (device_ip domain rule_name : String) : Bool × String :=
  match m.firewall with
  | none => (false, "No firewall configured")
  | some fw => fw.unblockDomain env device_ip domain rule_name

/-- `FirewallManager.list_rules` (lines 523-528). -/
def FirewallManager.listRules (m : FirewallManager) (env : AdapterEnv) : List RuleInfo :=
  match m.firewall with
  | none => []
  | some fw => fw.listRules env

/-- `FirewallManager.test_connection` (lines 530-535). -/
def FirewallManager.testConnection (m : FirewallManager) (env : AdapterEnv) :
    Bool × String :=
  match m.firewall with
  | none => (false, "No firewall configured")
  | some fw => fw.testConnection env

/-! ## Router capability negotiator (`router_config_manager.py`) -/

/-- Outcome of the paramiko stage of `test_ssh_connection`, reached only
after the TCP probe succeeds. -/
inductive SshOutcome where
  | ok (systemInfo routerType : String)
  | authFail
  | sshFail (msg : String)
  | timeout
  | otherError (msg : String)
deriving DecidableEq, Repr

/-- Environment for `test_ssh_connection`: the `connect_ex` return code
of the TCP probe, and what the authenticated session stage would do. -/
structure SshEnv where
  connectResult : Int
  sshOutcome : SshOutcome
deriving DecidableEq, Repr

/-- Result of `test_ssh_connection`; `sshAttempted` records whether the
paramiko session step was reached (the observable side effect). -/
structure SshProbeResult where
  ok : Bool
  message : String
  sshAttempted : Bool
deriving DecidableEq, Repr

/-- `RouterConfigManager.test_ssh_connection` (lines 60-130): the TCP
probe runs first; a non-zero `connect_ex` result returns the
unreachable failure before any SSH work; otherwise the result is
determined by the session stage and its exception handlers. -/
def test_ssh_connection (env : SshEnv) (router_ip : String)
    (_username _password : String) (port : Nat) (_timeout : Nat) : SshProbeResult :=
  if env.connectResult != 0 then
    { ok := false,
      message := "Cannot reach " ++ router_ip ++ ":" ++ toString port ++
        " - Network unreachable",
      sshAttempted := false }
  else
    match env.sshOutcome with
    | .ok _ routerType =>
      { ok := true, message := "Successfully connected to " ++ routerType ++ " router",
        sshAttempted := true }
    | .authFail =>
      { ok := false, message := "Authentication failed - Invalid username or password",
        sshAttempted := true }
    | .sshFail m =>
      { ok := false, message := "SSH connection failed: " ++ m, sshAttempted := true }
    | .timeout =>
      { ok := false,
        message := "Connection timeout - Router not responding on port " ++ toString port,
        sshAttempted := true }
    | .otherError m =>
      { ok := false, message := "Connection failed: " ++ m, sshAttempted := true }

/-! ## Example fixtures used by concrete theorems -/

/-- A block list holding the single normalized key "example.com". -/
def exDupState : GBState :=
  ⟨[{ domain := "example.com", reason := "r", created_by := "a",
      created_at := "t", applied_devices := [], status := "active" }]⟩

/-! ## Claims about `add_blocked_domain` / `remove_blocked_domain` -/

/-- C1 counterexample: after `add("HTTP://WWW.Example.com/")` on an
empty block list, the call `add("example.com")` succeeds — it does not
fail with the domain-already-blocked outcome, because the first input
normalizes to "example.com/" (the trailing slash survives), not to
"example.com". -/
theorem add_scenario_second_call_succeeds :
    (add_blocked_domain exEnv
      (add_blocked_domain exEnv ⟨[]⟩ "HTTP://WWW.Example.com/" "Global block" "admin").1
      "example.com" "Global block" "admin").2.1 = true := by decide

/-- C1 (amended): `add`'s normalization strips whitespace, upper case,
the scheme and `www.`, but not the trailing slash, so
"HTTP://WWW.Example.com/" is stored under the key "example.com/" and a
following `add("example.com")` succeeds; with the slash-free input
"HTTP://WWW.Example.com" both calls collapse to the key "example.com"
and the second call does fail as already blocked. -/
theorem add_scenario_normalization :
    cleanDomain "HTTP://WWW.Example.com/" = "example.com/"
    ∧ cleanDomain "example.com" = "example.com"
    ∧ (add_blocked_domain exEnv
        (add_blocked_domain exEnv ⟨[]⟩ "HTTP://WWW.Example.com/" "Global block" "admin").1
        "example.com" "Global block" "admin").2 =
        (true, "Domain example.com blocked successfully on 0 devices")
    ∧ cleanDomain "HTTP://WWW.Example.com" = "example.com"
    ∧ (add_blocked_domain exEnv
        (add_blocked_domain exEnv ⟨[]⟩ "HTTP://WWW.Example.com" "Global block" "admin").1
        "example.com" "Global block" "admin").2 =
        (false, "Domain example.com is already blocked") := by decide

/-- C3: whenever some stored entry's key equals the normalized input,
`add_blocked_domain` fails with the already-blocked message and returns
the state unchanged (in particular the list length is unchanged and no
entry is overwritten). -/
theorem add_duplicate_rejected (env : GBEnv) (st : GBState)
    (domain reason created_by : String)
    (h : ∃ e ∈ st.blocked_domains, e.domain = cleanDomain domain) :
    add_blocked_domain env st domain reason created_by =
      (st, false, "Domain " ++ cleanDomain domain ++ " is already blocked") := by
  obtain ⟨e, he, hd⟩ := h
  have hany : st.blocked_domains.any (fun d => d.domain == cleanDomain domain) = true :=
    List.any_eq_true.mpr ⟨e, he, by simp [hd]⟩
  unfold add_blocked_domain
  simp [hany]

/-- C3 witness: adding "example.com" to a list already keyed by
"example.com" fails and leaves the state unchanged. -/
theorem add_duplicate_rejected_witness :
    (∃ e ∈ exDupState.blocked_domains, e.domain = cleanDomain "example.com")
    ∧ add_blocked_domain exEnv exDupState "example.com" "r" "a" =
        (exDupState, false, "Domain " ++ cleanDomain "example.com" ++ " is already blocked") :=
  ⟨by decide, add_duplicate_rejected exEnv exDupState "example.com" "r" "a" (by decide)⟩

/-- C2 counterexample: `add("www.example.com")` on an empty list
succeeds (the entry is stored under "example.com"), but the immediately
following `remove("www.example.com")` fails with the not-found outcome
and leaves a non-empty block list, because `remove` normalizes with
`strip().lower()` only and looks for the key "www.example.com". -/
theorem add_remove_roundtrip_cex :
    (add_blocked_domain exEnv ⟨[]⟩ "www.example.com" "Global block" "admin").2.1 = true
    ∧ (remove_blocked_domain exEnv
        (add_blocked_domain exEnv ⟨[]⟩ "www.example.com" "Global block" "admin").1
        "www.example.com" "admin").2 =
        (false, "Domain www.example.com not found in block list")
    ∧ (remove_blocked_domain exEnv
        (add_blocked_domain exEnv ⟨[]⟩ "www.example.com" "Global block" "admin").1
        "www.example.com" "admin").1.blocked_domains ≠ [] := by decide

/-- C2 (amended): the add/remove round-trip holds exactly for inputs on
which the two normalizations agree — `add` strips scheme and `www.`
while `remove` only strips whitespace and case.  Under that agreement,
if `add d` succeeds on an empty block list then `remove d` succeeds and
leaves the block list empty. -/
theorem add_remove_roundtrip_normalized (env : GBEnv)
    (d reason actor removed_by : String)
    (hnorm : cleanDomain d = cleanRemoveDomain d)
    (hadd : (add_blocked_domain env ⟨[]⟩ d reason actor).2.1 = true) :
    (remove_blocked_domain env (add_blocked_domain env ⟨[]⟩ d reason actor).1
      d removed_by).2.1 = true
    ∧ (remove_blocked_domain env (add_blocked_domain env ⟨[]⟩ d reason actor).1
        d removed_by).1.blocked_domains = [] := by
  have hsave : env.saveOk = true := by
    by_contra hs
    rw [Bool.not_eq_true] at hs
    unfold add_blocked_domain at hadd
    simp [hs] at hadd
  have hst : (add_blocked_domain env ⟨[]⟩ d reason actor).1 =
      ⟨[{ domain := cleanDomain d, reason := reason, created_by := actor,
          created_at := env.nowStr, applied_devices := [], status := "active" }]⟩ := by
    cases happ : (apply_domain_block env (cleanDomain d)).1 <;>
      simp [add_blocked_domain, hsave, happ]
  rw [hst]
  unfold remove_blocked_domain
  rw [hnorm]
  simp only [List.filter, beq_self_eq_true, Bool.not_true, List.length_nil,
    List.length_cons, Nat.zero_ne_add_one, beq_iff_eq, if_false, ite_false]
  simp [hsave]
  cases hrm : (remove_domain_block env (cleanRemoveDomain d)).1 <;> simp [hrm]

/-- C2 witness: the round-trip at the already-normalized input
"example.com". -/
theorem add_remove_roundtrip_normalized_witness :
    (cleanDomain "example.com" = cleanRemoveDomain "example.com"
      ∧ (add_blocked_domain exEnv ⟨[]⟩ "example.com" "Global block" "admin").2.1 = true)
    ∧ ((remove_blocked_domain exEnv
          (add_blocked_domain exEnv ⟨[]⟩ "example.com" "Global block" "admin").1
          "example.com" "admin").2.1 = true
        ∧ (remove_blocked_domain exEnv
            (add_blocked_domain exEnv ⟨[]⟩ "example.com" "Global block" "admin").1
            "example.com" "admin").1.blocked_domains = []) :=
  ⟨⟨by decide, by decide⟩,
   add_remove_roundtrip_normalized exEnv "example.com" "Global block" "admin" "admin"
     (by decide) (by decide)⟩

/-- Removing the matching elements makes the filtered list strictly
shorter when a match exists. -/
theorem filter_not_length_lt {α : Type} (p : α → Bool) (l : List α)
    (h : l.any p = true) :
    (l.filter (fun e => !(p e))).length < l.length := by
  induction l with
  | nil => simp at h
  | cons a t ih =>
    cases hpa : p a with
    | true =>
      simp only [List.filter_cons, hpa, Bool.not_true, List.length_cons]
      exact Nat.lt_succ_of_le (List.length_filter_le _ t)
    | false =>
      have ht : t.any p = true := by
        rcases List.any_eq_true.mp h with ⟨x, hx, hpx⟩
        rcases List.mem_cons.mp hx with hx | hx
        · rw [hx] at hpx; rw [hpa] at hpx; cases hpx
        · exact List.any_eq_true.mpr ⟨x, hx, hpx⟩
      simp only [List.filter_cons, hpa, Bool.not_false, List.length_cons, if_true]
      exact Nat.succ_lt_succ (ih ht)

/-- C10: when the save to disk succeeds, `add_blocked_domain` reports
success and keeps the appended entry even if `apply_domain_block`
fails — the failure only changes the message to the pending variant;
symmetrically, `remove_blocked_domain` reports success and keeps the
filtered list even if `remove_domain_block` fails. -/
theorem mutation_kept_on_rule_application_failure (env : GBEnv) (st st2 : GBState)
    (d reason actor d2 removed_by : String)
    (hsave : env.saveOk = true)
    (hnodup : st.blocked_domains.any (fun e => e.domain == cleanDomain d) = false)
    (hfound : st2.blocked_domains.any (fun e => e.domain == cleanRemoveDomain d2) = true) :
    (add_blocked_domain env st d reason actor).2.1 = true
    ∧ (add_blocked_domain env st d reason actor).1.blocked_domains =
        st.blocked_domains ++
          [{ domain := cleanDomain d, reason := reason, created_by := actor,
             created_at := env.nowStr, applied_devices := [], status := "active" }]
    ∧ ((apply_domain_block env (cleanDomain d)).1 = false →
        (add_blocked_domain env st d reason actor).2.2 =
          "Domain " ++ cleanDomain d ++ " added to block list (rules application pending)")
    ∧ (remove_blocked_domain env st2 d2 removed_by).2.1 = true
    ∧ (remove_blocked_domain env st2 d2 removed_by).1.blocked_domains =
        st2.blocked_domains.filter (fun e => !(e.domain == cleanRemoveDomain d2))
    ∧ ((remove_domain_block env (cleanRemoveDomain d2)).1 = false →
        (remove_blocked_domain env st2 d2 removed_by).2.2 =
          "Domain " ++ cleanRemoveDomain d2 ++ " removed from block list (rules removal pending)") := by
  have hlt := filter_not_length_lt (fun e => e.domain == cleanRemoveDomain d2)
    st2.blocked_domains hfound
  have hne : ((st2.blocked_domains.filter
      (fun e => !(e.domain == cleanRemoveDomain d2))).length ==
        st2.blocked_domains.length) = false := by
    exact beq_eq_false_iff_ne.mpr (Nat.ne_of_lt hlt)
  refine ⟨?_, ?_, ?_, ?_, ?_, ?_⟩
  · cases happ : (apply_domain_block env (cleanDomain d)).1 <;>
      simp [add_blocked_domain, hsave, hnodup, happ]
  · cases happ : (apply_domain_block env (cleanDomain d)).1 <;>
      simp [add_blocked_domain, hsave, hnodup, happ]
  · intro happ
    simp [add_blocked_domain, hsave, hnodup, happ]
  · cases hrm : (remove_domain_block env (cleanRemoveDomain d2)).1 <;>
      simp [remove_blocked_domain, hsave, hne, hrm]
  · cases hrm : (remove_domain_block env (cleanRemoveDomain d2)).1 <;>
      simp [remove_blocked_domain, hsave, hne, hrm]
  · intro hrm
    simp [remove_blocked_domain, hsave, hne, hrm]

/-- C10 witness: concrete add on an empty list and remove on a
single-entry list, both with a working save. -/
theorem mutation_kept_on_rule_application_failure_witness :
    (exEnv.saveOk = true
      ∧ (GBState.mk []).blocked_domains.any
          (fun e => e.domain == cleanDomain "example.com") = false
      ∧ exDupState.blocked_domains.any
          (fun e => e.domain == cleanRemoveDomain "example.com") = true)
    ∧ ((add_blocked_domain exEnv ⟨[]⟩ "example.com" "r" "a").2.1 = true
        ∧ (remove_blocked_domain exEnv exDupState "example.com" "a").2.1 = true) := by
  have h := mutation_kept_on_rule_application_failure exEnv ⟨[]⟩ exDupState
    "example.com" "r" "a" "example.com" "a" (by decide) (by decide) (by decide)
  exact ⟨⟨by decide, by decide, by decide⟩, h.1, h.2.2.2.1⟩

/-! ## Claims about `reapply_all_rules` and `apply_domain_block` -/

/-- Unrolling the `reapply_all_rules` fold: from any accumulator, the
fold adds the counts of the succeeding active domains and appends the
failing active domains in order. -/
theorem reapply_foldl (env : GBEnv) (l : List BlockEntry) :
    ∀ acc : Nat × List String,
      l.foldl (reapplyStep env) acc =
        (acc.1 + reapplyTotal env ⟨l⟩, acc.2 ++ reapplyFailed env ⟨l⟩) := by
  induction l with
  | nil =>
    intro acc
    simp [reapplyTotal, reapplyFailed, activeDomains]
  | cons e t ih =>
    intro acc
    rw [List.foldl_cons, ih]
    cases hst : (e.status == "active") <;>
      cases hap : (apply_domain_block env e.domain).1 <;>
        simp [reapplyStep, reapplyTotal, reapplyFailed, activeDomains, hst, hap,
          Nat.add_assoc, List.append_assoc]

/-- C6: `reapply_all_rules` consults every `status = "active"` entry —
a per-domain failure does not abort the remaining domains — and its
result is exactly determined by the full list of active domains: the
flag is whether no active domain failed, the summary counts the rules
applied for the succeeding domains, and on failure the message names
every failed domain, comma-joined in list order. -/
theorem reapply_all_rules_spec (env : GBEnv) (st : GBState) :
    reapply_all_rules env st =
      if (reapplyFailed env st).isEmpty then
        (true, "Successfully applied " ++ toString (reapplyTotal env st) ++
          " blocking rules")
      else
        (false, "Applied " ++ toString (reapplyTotal env st) ++ " rules, failed: " ++
          pyJoin ", " (reapplyFailed env st)) := by
  unfold reapply_all_rules
  rw [reapply_foldl env st.blocked_domains (0, [])]
  simp

/-- A router configuration file with `mode = "simulated"` that
nevertheless records `connection_status.success = true`. -/
def simRouterFile : RouterFile :=
  { connectionSuccess := true, mode := "simulated", router_ip := "192.168.1.1",
    username := "admin", password := "pw", port := 22 }

/-- Environment whose stored router profile is `simRouterFile`, with one
device whose iptables command writes to stderr. -/
def envSimReal : GBEnv :=
  { saveOk := true, routerFile := some simRouterFile,
    devices := [⟨some "192.168.1.10"⟩],
    sshConnectOk := fun _ => true, stderrEmpty := fun _ _ => false,
    removeSshOk := fun _ => true, nowStr := "t" }

/-- C7 counterexample: with a stored profile of mode "simulated" whose
`connection_status.success` flag is true, `apply_domain_block` takes
the real SSH path (third component `true`) and returns an applied count
of 0, not the full device count 1 — the guard the code checks is
`connection_status.success`, not the mode. -/
theorem simulated_mode_guard_cex :
    (envSimReal.routerFile.map (fun c => c.mode)) = some "simulated"
    ∧ (apply_domain_block envSimReal "example.com").2.2 = true
    ∧ (apply_domain_block envSimReal "example.com").2.1 ≠ envSimReal.devices.length := by
  decide

/-- C7 (amended): whenever `load_router_config` yields nothing — the
stored router configuration is absent, unreadable, or does not record
`connection_status.success = true` (which covers every profile the
router configuration manager persists, since it never writes that key,
in particular all simulated-mode profiles) — `apply_domain_block` and
`remove_domain_block` perform no SSH invocation and return success with
the full device count. -/
theorem simulated_mode_no_ssh (env : GBEnv) (domain : String)
    (h : load_router_config env.routerFile = none) :
    apply_domain_block env domain = (true, env.devices.length, false)
    ∧ remove_domain_block env domain = (true, env.devices.length, false) := by
  unfold apply_domain_block remove_domain_block
  rw [h]
  exact ⟨rfl, rfl⟩

/-- C7 witness: the amended theorem at a concrete environment with an
absent router configuration. -/
theorem simulated_mode_no_ssh_witness :
    load_router_config exEnv.routerFile = none
    ∧ (apply_domain_block exEnv "example.com" = (true, exEnv.devices.length, false)
        ∧ remove_domain_block exEnv "example.com" = (true, exEnv.devices.length, false)) :=
  ⟨by decide, simulated_mode_no_ssh exEnv "example.com" (by decide)⟩

/-! ## Claims about the discovery engine -/

/-- A concrete MAC-bearing observation. -/
def exDevice : Device :=
  { ip := "192.168.1.50", mac := some "AA:BB:CC:00:11:22",
    hostname := some "printer-finance", vendor := none, os := none,
    ports := ["631/tcp (ipp)"] }

/-- C4 counterexample: a scan-loop iteration whose scan found no
devices appends no scan-history row at all (the save runs only under
`if devices:`), and when a row is appended its `scan_method` is the
literal "automated" even though the strategy chain would have used
nmap — the strategy actually used is never recorded. -/
theorem scan_event_logging_cex :
    (scanLoopIteration 5 ⟨[], []⟩ []).scan_history = []
    ∧ (scanLoopIteration 5 ⟨[], []⟩ [exDevice]).scan_history = [⟨5, 1, "automated"⟩]
    ∧ scanMethodUsed true false = "nmap"
    ∧ "automated" ≠ "nmap" := by decide

/-- C4 (amended): per scan-loop iteration, exactly one scan-history row
is appended when the scan produced at least one MAC-bearing
observation, and none when it produced none; the appended row records
the observation count but always the constant method "automated",
never the scan strategy actually used. -/
theorem scan_event_logging (now : Nat) (db : DiscoveryDB) (devices : List Device) :
    (scanLoopIteration now db devices).scan_history =
      if devices.isEmpty then db.scan_history
      else db.scan_history ++ [⟨now, devices.length, "automated"⟩] := by
  unfold scanLoopIteration save_to_local_db
  cases devices <;> simp

/-- The update branch keeps the MAC. -/
theorem updateRec_mac (t : Nat) (d : Device) (r : DeviceRecord) :
    (updateRec t d r).mac = r.mac := rfl

/-- The update branch keeps `first_seen`. -/
theorem updateRec_first_seen (t : Nat) (d : Device) (r : DeviceRecord) :
    (updateRec t d r).first_seen = r.first_seen := rfl

/-- The update branch sets `last_seen` to the current timestamp. -/
theorem updateRec_last_seen (t : Nat) (d : Device) (r : DeviceRecord) :
    (updateRec t d r).last_seen = t := rfl

/-- Mapping the conditional update over the table rewrites the row the
search finds. -/
theorem find?_map_update (t : Nat) (d : Device) (m : String) :
    ∀ (l : List DeviceRecord) (r : DeviceRecord),
      l.find? (fun x => x.mac == m) = some r →
      (l.map (fun x => if x.mac == m then updateRec t d x else x)).find?
        (fun x => x.mac == m) = some (updateRec t d r) := by
  intro l
  induction l with
  | nil => intro r h; simp [List.find?] at h
  | cons a tl ih =>
    intro r h
    cases ha : (a.mac == m) with
    | true =>
      rw [List.find?_cons_of_pos (p := fun (x : DeviceRecord) => x.mac == m) _ ha] at h
      injection h with h
      subst h
      rw [List.map_cons, if_pos ha]
      exact List.find?_cons_of_pos (p := fun (x : DeviceRecord) => x.mac == m) _
        (by simpa [updateRec_mac] using ha)
    | false =>
      have ha' : ¬((a.mac == m) = true) := by rw [ha]; exact Bool.false_ne_true
      rw [List.find?_cons_of_neg (p := fun (x : DeviceRecord) => x.mac == m) _ ha'] at h
      rw [List.map_cons, if_neg ha',
        List.find?_cons_of_neg (p := fun (x : DeviceRecord) => x.mac == m) _ ha']
      exact ih r h

/-- Upserting an observation for a MAC already in the table rewrites
exactly the found row through `updateRec`. -/
theorem upsert_existing (t : Nat) (d : Device) (m : String)
    (l : List DeviceRecord) (r : DeviceRecord) (hd : d.mac = some m)
    (hf : l.find? (fun x => x.mac == m) = some r) :
    (upsertDevice t l d).find? (fun x => x.mac == m) = some (updateRec t d r) := by
  have hany : l.any (fun x => x.mac == m) = true :=
    List.any_eq_true.mpr ⟨r, List.mem_of_find?_eq_some hf,
      by simpa using List.find?_some hf⟩
  simp only [upsertDevice, hd, hany, if_true]
  exact find?_map_update t d m l r hf

/-- Folding one scan's observations (all for MAC `m`, at timestamp `t`
at or after the row's `last_seen`) keeps `first_seen` and moves
`last_seen` monotonically, never past `t`. -/
theorem scan_fold_preserves (t : Nat) (m : String) :
    ∀ (devs : List Device) (l : List DeviceRecord) (r : DeviceRecord),
      (∀ d ∈ devs, d.mac = some m) →
      l.find? (fun x => x.mac == m) = some r →
      r.last_seen ≤ t →
      ∃ r', (devs.foldl (upsertDevice t) l).find? (fun x => x.mac == m) = some r'
        ∧ r'.first_seen = r.first_seen
        ∧ r.last_seen ≤ r'.last_seen ∧ r'.last_seen ≤ t := by
  intro devs
  induction devs with
  | nil =>
    intro l r _ hf hle
    exact ⟨r, hf, rfl, le_refl _, hle⟩
  | cons d ds ih =>
    intro l r hall hf hle
    have hd : d.mac = some m := hall d (List.mem_cons_self d ds)
    have h1 := upsert_existing t d m l r hd hf
    obtain ⟨r', hf', hfs, hls, hlt⟩ :=
      ih (upsertDevice t l d) (updateRec t d r)
        (fun x hx => hall x (List.mem_cons_of_mem d hx)) h1
        (by rw [updateRec_last_seen])
    refine ⟨r', by rw [List.foldl_cons]; exact hf', ?_, ?_, hlt⟩
    · rw [hfs, updateRec_first_seen]
    · rw [updateRec_last_seen] at hls
      exact le_trans hle hls

/-- Lowering the head of a non-decreasing chain keeps it a chain. -/
theorem chain_le_of_le {x y : Nat} {l : List Nat}
    (h : List.Chain (fun a b => a ≤ b) y l) (hxy : x ≤ y) :
    List.Chain (fun a b => a ≤ b) x l := by
  cases l with
  | nil => exact List.Chain.nil
  | cons a t =>
    cases h with
    | cons hya hrest => exact List.Chain.cons (le_trans hxy hya) hrest

/-- C5: reconciling any sequence of scans whose observations all carry
the MAC of an existing Device Record — `save_to_local_db` applied any
number of times, with non-decreasing wall-clock timestamps — never
changes the record's `first_seen` and never decreases its `last_seen`. -/
theorem first_seen_immutable_last_seen_monotone (m : String)
    (scans : List (Nat × List Device)) (db : DiscoveryDB) (r : DeviceRecord)
    (hmac : ∀ s ∈ scans, ∀ d ∈ s.2, d.mac = some m)
    (hchain : List.Chain (fun a b => a ≤ b) r.last_seen (scans.map Prod.fst))
    (hfind : db.devices.find? (fun x => x.mac == m) = some r) :
    ∃ r', (scans.foldl (fun acc s => save_to_local_db s.1 acc s.2) db).devices.find?
        (fun x => x.mac == m) = some r'
      ∧ r'.first_seen = r.first_seen ∧ r.last_seen ≤ r'.last_seen := by
  induction scans generalizing db r with
  | nil => exact ⟨r, hfind, rfl, le_refl _⟩
  | cons s ss ih =>
    obtain ⟨t, devs⟩ := s
    rw [List.map_cons] at hchain
    cases hchain with
    | cons hle hchain' =>
      have hall : ∀ d ∈ devs, d.mac = some m :=
        hmac (t, devs) (List.mem_cons_self _ _)
      obtain ⟨r1, hf1, hfs1, hls1, hlt1⟩ :=
        scan_fold_preserves t m devs db.devices r hall hfind hle
      obtain ⟨r', hf', hfs', hls'⟩ :=
        ih (save_to_local_db t db devs) r1
          (fun x hx => hmac x (List.mem_cons_of_mem _ hx))
          (chain_le_of_le hchain' hlt1) hf1
      exact ⟨r', by rw [List.foldl_cons]; exact hf',
        by rw [hfs', hfs1], le_trans hls1 hls'⟩

/-- The Device Record fixture for the C5 witness. -/
def exRecord : DeviceRecord :=
  { mac := "AA:BB:CC:00:11:22", ip_address := "192.168.1.50",
    hostname := some "printer-finance", vendor := none, device_type := "Printer",
    first_seen := 1, last_seen := 3, ports_open := "631/tcp (ipp)",
    os_guess := none, status := "active" }

/-- C5 witness: one further scan at timestamp 5 against a registry
holding `exRecord` (`last_seen = 3`). -/
theorem first_seen_immutable_last_seen_monotone_witness :
    ((∀ s ∈ [((5 : Nat), [exDevice])], ∀ d ∈ s.2, d.mac = some "AA:BB:CC:00:11:22")
      ∧ List.Chain (fun a b => a ≤ b) exRecord.last_seen
          ([((5 : Nat), [exDevice])].map Prod.fst)
      ∧ (DiscoveryDB.mk [exRecord] []).devices.find?
          (fun x => x.mac == "AA:BB:CC:00:11:22") = some exRecord)
    ∧ ∃ r', ([((5 : Nat), [exDevice])].foldl
          (fun acc s => save_to_local_db s.1 acc s.2)
          ⟨[exRecord], []⟩).devices.find?
            (fun x => x.mac == "AA:BB:CC:00:11:22") = some r'
        ∧ r'.first_seen = exRecord.first_seen
        ∧ exRecord.last_seen ≤ r'.last_seen :=
  ⟨⟨by decide, List.Chain.cons (by decide) List.Chain.nil, by decide⟩,
   first_seen_immutable_last_seen_monotone "AA:BB:CC:00:11:22"
     [((5 : Nat), [exDevice])] ⟨[exRecord], []⟩ exRecord
     (by decide) (List.Chain.cons (by decide) List.Chain.nil) (by decide)⟩

/-! ## Claims about the firewall manager and the capability negotiator -/

/-- C8: after construction the manager always holds exactly one
adapter: a configured type of "simulated" or any unrecognized type, and
likewise an exception while constructing a concrete adapter, yield the
simulated adapter; and every manager operation delegates to that
adapter, so the "No firewall configured" error branches of
`block_domain`, `unblock_domain`, `list_rules` and `test_connection`
are never taken. -/
theorem firewall_manager_always_one_adapter (cfg : Option FWConfig) (ctorRaises : Bool) :
    ∃ a : Adapter,
      (mkFirewallManager cfg ctorRaises).firewall = some a
      ∧ (((cfg.getD defaultFWConfig).ftype.getD "simulated" = "simulated"
          ∨ (cfg.getD defaultFWConfig).ftype.getD "simulated" ∉
              (["pfsense", "openwrt", "fortigate"] : List String)
          ∨ ctorRaises = true) → a = Adapter.simulated)
      ∧ (∀ env device_ip domain rule_name,
          (mkFirewallManager cfg ctorRaises).blockDomain env device_ip domain rule_name =
            a.blockDomain env device_ip domain rule_name)
      ∧ (∀ env device_ip domain rule_name,
          (mkFirewallManager cfg ctorRaises).unblockDomain env device_ip domain rule_name =
            a.unblockDomain env device_ip domain rule_name)
      ∧ (∀ env, (mkFirewallManager cfg ctorRaises).listRules env = a.listRules env)
      ∧ (∀ env, (mkFirewallManager cfg ctorRaises).testConnection env =
          a.testConnection env) := by
  refine ⟨(initFirewall ((cfg.getD defaultFWConfig).ftype.getD "simulated")
      (cfg.getD defaultFWConfig) ctorRaises).1, rfl, ?_,
    fun env a b c => rfl, fun env a b c => rfl, fun env => rfl, fun env => rfl⟩
  intro h
  rcases h with h | h | h
  · rw [h]
    cases ctorRaises <;> simp [initFirewall]
  · cases ctorRaises with
    | true => simp [initFirewall]
    | false =>
      simp only [List.mem_cons, List.not_mem_nil, or_false, not_or] at h
      obtain ⟨h1, h2, h3⟩ := h
      simp [initFirewall, h1, h2, h3]
  · rw [h]
    simp [initFirewall]

/-- The configuration for the C8 witness. -/
def exFWConfig : FWConfig :=
  { ftype := some "pfsense", host := some "10.0.0.1", username := some "admin",
    password := some "pw", api_key := none, vdom := none }

/-- C8 witness: the theorem instantiated at a pfSense configuration
whose adapter construction raises. -/
theorem firewall_manager_always_one_adapter_witness :
    ∃ a : Adapter,
      (mkFirewallManager (some exFWConfig) true).firewall = some a
      ∧ ((((some exFWConfig).getD defaultFWConfig).ftype.getD "simulated" = "simulated"
          ∨ ((some exFWConfig).getD defaultFWConfig).ftype.getD "simulated" ∉
              (["pfsense", "openwrt", "fortigate"] : List String)
          ∨ true = true) → a = Adapter.simulated)
      ∧ (∀ env device_ip domain rule_name,
          (mkFirewallManager (some exFWConfig) true).blockDomain
              env device_ip domain rule_name =
            a.blockDomain env device_ip domain rule_name)
      ∧ (∀ env device_ip domain rule_name,
          (mkFirewallManager (some exFWConfig) true).unblockDomain
              env device_ip domain rule_name =
            a.unblockDomain env device_ip domain rule_name)
      ∧ (∀ env, (mkFirewallManager (some exFWConfig) true).listRules env =
          a.listRules env)
      ∧ (∀ env, (mkFirewallManager (some exFWConfig) true).testConnection env =
          a.testConnection env) :=
  firewall_manager_always_one_adapter (some exFWConfig) true

/-- C9: whenever the TCP-connect probe fails (`connect_ex` returns a
non-zero code), `test_ssh_connection` returns the distinct unreachable
failure naming the host and port, and the authenticated SSH session
step is never attempted — in particular unreachability is never
reported as an authentication failure. -/
theorem tcp_unreachable_no_ssh (env : SshEnv) (router_ip username password : String)
    (port timeout : Nat) (h : env.connectResult ≠ 0) :
    test_ssh_connection env router_ip username password port timeout =
      { ok := false,
        message := "Cannot reach " ++ router_ip ++ ":" ++ toString port ++
          " - Network unreachable",
        sshAttempted := false } := by
  unfold test_ssh_connection
  rw [if_pos (bne_iff_ne.mpr h)]

/-- The SSH environment for the C9 witness: TCP probe fails while the
session stage would have reported an authentication failure. -/
def exSshEnv : SshEnv :=
  { connectResult := 1, sshOutcome := SshOutcome.authFail }

/-- C9 witness: at `connect_ex = 1` the unreachable message is produced
verbatim and no SSH attempt happens. -/
theorem tcp_unreachable_no_ssh_witness :
    exSshEnv.connectResult ≠ 0
    ∧ test_ssh_connection exSshEnv "10.0.0.1" "admin" "pw" 22 10 =
        { ok := false,
          message := "Cannot reach " ++ "10.0.0.1" ++ ":" ++ toString (22 : Nat) ++
            " - Network unreachable",
          sshAttempted := false }
    ∧ (test_ssh_connection exSshEnv "10.0.0.1" "admin" "pw" 22 10).message =
        "Cannot reach 10.0.0.1:22 - Network unreachable" :=
  ⟨by decide, tcp_unreachable_no_ssh exSshEnv "10.0.0.1" "admin" "pw" 22 10 (by decide),
   by decide⟩
